import Mathlib

/-!
Verification of `modelscope/pipelines/base.py`: the `Pipeline` /
`DistributedPipeline` execution engine and the `collate_fn` helper.

The Python code is shallowly embedded: Python runtime values are modelled by
the mutual inductive `PyVal` / `PyItems` / `PyFields`; code that can raise
exceptions returns `Except PyErr _`.  The external collaborators (models,
preprocessors, the hub, torch, the task registries) are abstracted as
parameters; everything translated here comes from `base.py` itself unless a
doc comment says `Modelled from the spec:`.
-/

namespace ModelscopeBase

/-- Python exceptions raised (directly or via builtins) by the embedded code. -/
inductive PyErr where
  | indexError
  | valueError (msg : String)
  | typeError (msg : String)
deriving Repr, DecidableEq

mutual

/-- A Python runtime value, restricted to the shapes `base.py` inspects:
dicts, lists, tuples, numpy arrays (tracking only whether the dtype is a
string dtype), torch tensors (tracking the device they live on), the plain
primitives, the two opaque pass-through containers (`InputFeatures`,
`mmcv DataContainer`), and a catch-all for any other object (tracking only
its type name). -/
inductive PyVal where
  | vDict (entries : PyFields)
  | vList (items : PyItems)
  | vTuple (items : PyItems)
  | vNdarray (strDtype : Bool)
  | vTensor (device : String)
  | vBytes
  | vStr (s : String)
  | vInt (n : Int)
  | vFloat
  | vBool (b : Bool)
  | vNone
  | vInputFeatures
  | vDataContainer
  | vOther (tyName : String)

/-- Elements of a Python list or tuple. -/
inductive PyItems where
  | nil
  | cons (v : PyVal) (rest : PyItems)

/-- Entries of a Python dict (insertion ordered, as in Python). -/
inductive PyFields where
  | nil
  | cons (k : String) (v : PyVal) (rest : PyFields)

end

/-- Python `isinstance(x, (int, float))`: note that Python `bool` is a
subclass of `int`, so booleans satisfy this check as well. -/
def isIntFloat : PyVal → Bool
  | .vInt _ => true
  | .vFloat => true
  | .vBool _ => true
  | _ => false

/-- Every element of the sequence is a Python number (int/float/bool). -/
def allNumItems : PyItems → Bool
  | .nil => true
  | .cons v rest => isIntFloat v && allNumItems rest

mutual

/-- Embedding of `collate_fn(data, device)`.  External library calls are
modelled by their effect on the embedded values: `default_collate(data)` on a
batch whose first element is a number runs `torch.tensor(batch)`, which
builds one tensor when every element is a number and raises when a later
element is not (the exact exception class varies with the offending
element; it is modelled as one representative `TypeError`);
`torch.from_numpy` turns a numeric array into a tensor, and `.to(device)`
yields a tensor living on `device`.  `data[0]` on an empty list or tuple
raises `IndexError`. -/
def collate_fn (device : String) : PyVal → Except PyErr PyVal
  | .vDict entries =>
    match collateFields device entries with
    | .error e => .error e
    | .ok gs => .ok (.vDict gs)
  | .vList .nil => .error .indexError
  | .vList (.cons v rest) =>
    if isIntFloat v then
      if allNumItems (.cons v rest) then .ok (.vTensor device)
      else .error (.typeError "default_collate: batch must contain numbers of a consistent type")
    else
      match collateItems device (.cons v rest) with
      | .error e => .error e
      | .ok ws => .ok (.vList ws)
  | .vTuple .nil => .error .indexError
  | .vTuple (.cons v rest) =>
    if isIntFloat v then
      if allNumItems (.cons v rest) then .ok (.vTensor device)
      else .error (.typeError "default_collate: batch must contain numbers of a consistent type")
    else
      match collateItems device (.cons v rest) with
      | .error e => .error e
      | .ok ws => .ok (.vTuple ws)
  | .vNdarray strDtype =>
    if strDtype then .ok (.vNdarray true) else .ok (.vTensor device)
  | .vTensor _ => .ok (.vTensor device)
  | .vBytes => .ok .vBytes
  | .vStr s => .ok (.vStr s)
  | .vInt n => .ok (.vInt n)
  | .vFloat => .ok .vFloat
  | .vBool b => .ok (.vBool b)
  | .vNone => .ok .vNone
  | .vInputFeatures => .ok .vInputFeatures
  | .vDataContainer => .ok .vDataContainer
  | .vOther tyName => .error (.valueError ("Unsupported data type " ++ tyName))

/-- The generator `collate_fn(v, device) for v in data`: elementwise
collation of a list or tuple, propagating the first exception. -/
def collateItems (device : String) : PyItems → Except PyErr PyItems
  | .nil => .ok .nil
  | .cons v rest =>
    match collate_fn device v with
    | .error e => .error e
    | .ok w =>
      match collateItems device rest with
      | .error e => .error e
      | .ok ws => .ok (.cons w ws)

/-- The dict comprehension rebuilding the mapping with each value collated
(`collate_fn(v, device)` for every item), propagating the first
exception. -/
def collateFields (device : String) : PyFields → Except PyErr PyFields
  | .nil => .ok .nil
  | .cons k v rest =>
    match collate_fn device v with
    | .error e => .error e
    | .ok w =>
      match collateFields device rest with
      | .error e => .error e
      | .ok ws => .ok (.cons k w ws)

end

/-! ### Schema validation: `_check_input` and `_check_output` -/

/-- The input-shape descriptor registered in `TASK_INPUTS` for a task: a
single `InputType` constant (a Python string), a tuple of type constants
(positional multi-part input), a dict of named parts, or a list of
alternative shapes. -/
inductive InputDesc where
  | ty (t : String)
  | tup (ts : List String)
  | dictTy (kts : List (String × String))
  | alts (ds : List InputDesc)

/-- Rendering of a descriptor, standing in for the Python f-string
interpolation used when building error messages.  A nested list descriptor
is malformed and rendered opaquely. -/
def descRepr : InputDesc → String
  | .ty t => t
  | .tup ts => "(" ++ String.intercalate ", " ts ++ ")"
  | .dictTy kts =>
    "dict(" ++ String.intercalate ", " (kts.map (fun kt => kt.1 ++ ": " ++ kt.2)) ++ ")"
  | .alts _ => "list-descriptor"

/-- Python `type(t) == type(input)` for an alternative `t` of a list
descriptor: the descriptor's own runtime type (`str` for a type constant,
`tuple`, `dict`, or `list` for a nested alternative list) compared with the
exact runtime type of the input.  Exact type equality does not collapse
subclasses. -/
def descMatches (d : InputDesc) (v : PyVal) : Bool :=
  match d, v with
  | .ty _, .vStr _ => true
  | .tup _, .vTuple _ => true
  | .dictTy _, .vDict _ => true
  | .alts _, .vList _ => true
  | _, _ => false

/-- Python `type(v).__name__` of an embedded value. -/
def pyTypeName : PyVal → String
  | .vDict _ => "dict"
  | .vList _ => "list"
  | .vTuple _ => "tuple"
  | .vNdarray _ => "ndarray"
  | .vTensor _ => "Tensor"
  | .vBytes => "bytes"
  | .vStr _ => "str"
  | .vInt _ => "int"
  | .vFloat => "float"
  | .vBool _ => "bool"
  | .vNone => "NoneType"
  | .vInputFeatures => "InputFeatures"
  | .vDataContainer => "DataContainer"
  | .vOther t => t

/-- Key membership in a dict (`k in data` for a mapping). -/
def fieldsHasKey : PyFields → String → Bool
  | .nil, _ => false
  | .cons k _ rest, key => k == key || fieldsHasKey rest key

/-- Dict item access `data[key]` as an optional lookup. -/
def fieldsGet : PyFields → String → Option PyVal
  | .nil, _ => none
  | .cons k v rest, key => if k == key then some v else fieldsGet rest key

/-- String-element membership in a list or tuple. -/
def itemsContainsStr : PyItems → String → Bool
  | .nil, _ => false
  | .cons (.vStr s) rest, key => s == key || itemsContainsStr rest key
  | .cons _ rest, key => itemsContainsStr rest key

/-- Python `key in v` for the container shapes the validators meet: key
membership for dicts, element membership for lists and tuples.  (`in` on a
non-container raises `TypeError`; the validators only reach this with
dict-shaped values, so that branch is collapsed to `false` here.) -/
def pyContains (v : PyVal) (key : String) : Bool :=
  match v with
  | .vDict fs => fieldsHasKey fs key
  | .vList its => itemsContainsStr its key
  | .vTuple its => itemsContainsStr its key
  | _ => false

/-- Outcome of a validator: passed, skipped with a logged warning (task not
present in the registry table), or failed with the raised exception. -/
inductive CheckRes where
  | passed
  | skippedWarn
  | failed (e : PyErr)
deriving Repr, DecidableEq

/-- A validator outcome as seen by the caller: a skipped check behaves like
a passed one, a failed check raises. -/
def asExcept : CheckRes → Except PyErr Unit
  | .passed => .ok ()
  | .skippedWarn => .ok ()
  | .failed e => .error e

/-- Outcome of running a checking body: it either returns (check passed) or
raises (check failed). -/
def resOf : Except PyErr Unit → CheckRes
  | .ok _ => .passed
  | .error e => .failed e

/-- Registry-table lookup `TBL[task_name]` guarded by `task_name in TBL`. -/
def lookupTbl {α : Type} : List (String × α) → String → Option α
  | [], _ => none
  | (k, x) :: rest, key => if k == key then some x else lookupTbl rest key

/-- Pairwise loop `for t, input_ele in zip(input_type, input)` followed by
`check_input_type` on each pair; `zip` truncates at the shorter operand. -/
def checkZip (checkTy : String → PyVal → Except PyErr Unit) :
    List String → PyItems → Except PyErr Unit
  | [], _ => .ok ()
  | _ :: _, .nil => .ok ()
  | t :: ts, .cons v rest => do
    checkTy t v
    checkZip checkTy ts rest

/-- Loop `for k in input_type.keys(): if k in input: check_input_type(...)`:
declared keys absent from the input are tolerated. -/
def checkDictKeys (checkTy : String → PyVal → Except PyErr Unit) :
    List (String × String) → PyFields → Except PyErr Unit
  | [], _ => .ok ()
  | (k, t) :: kts, fs =>
    match fieldsGet fs k with
    | some v => do
      checkTy t v
      checkDictKeys checkTy kts fs
    | none => checkDictKeys checkTy kts fs

/-- The dispatch of `_check_input` on the (possibly selected) descriptor,
lines 250-261: a single type constant goes to the external
`check_input_type`; a tuple descriptor zips positionally against the input;
a dict descriptor checks each declared key present in the input; anything
else (a nested list descriptor) is a malformed schema definition.  A tuple
or dict descriptor meeting an input of a mismatched runtime type cannot
arise after alternative selection; iterating or key-probing such an input
raises `TypeError`, collapsed here to one representative `TypeError`. -/
def checkWithDesc (checkTy : String → PyVal → Except PyErr Unit)
    (d : InputDesc) (v : PyVal) : Except PyErr Unit :=
  match d with
  | .ty t => checkTy t v
  | .tup ts =>
    match v with
    | .vTuple its => checkZip checkTy ts its
    | .vList its => checkZip checkTy ts its
    | _ => .error (.typeError "zip argument is not iterable")
  | .dictTy kts =>
    match v with
    | .vDict fs => checkDictKeys checkTy kts fs
    | _ => .error (.typeError "membership test on a non-mapping input")
  | .alts ds => .error (.valueError ("invalid input_type definition " ++ descRepr (.alts ds)))

/-- The error message built when no alternative matches: the fixed header
plus one rendered alternative per line (`err_msg += f'{t}\n'` over all
alternatives). -/
def altsErrMsg (ds : List InputDesc) : String :=
  "input data format for current pipeline should be one of following: \n"
    ++ String.join (ds.map (fun d => descRepr d ++ "\n"))

/-- Embedding of `Pipeline._check_input`, parameterized by the external
`check_input_type` and by the `TASK_INPUTS` registry table.  A list
descriptor first selects the first alternative whose runtime type equals
the input's runtime type, failing with the enumerating `ValueError` when
none matches; the (selected) descriptor is then dispatched on. -/
def check_input (checkTy : String → PyVal → Except PyErr Unit)
    (taskInputs : List (String × InputDesc)) (taskName : String)
    (input : PyVal) : CheckRes :=
  match lookupTbl taskInputs taskName with
  | none => .skippedWarn
  | some d0 =>
    match d0 with
    | .alts ds =>
      match ds.find? (fun t => descMatches t input) with
      | none => .failed (.valueError (altsErrMsg ds))
      | some d => resOf (checkWithDesc checkTy d input)
    | d => resOf (checkWithDesc checkTy d input)

/-- Embedding of `Pipeline._check_output`, parameterized by the
`TASK_OUTPUTS` registry table (task name → required output keys): an
unregistered task is skipped with a warning; otherwise every required key
must be present in the result, and the raised message lists the expected
keys and exactly the missing ones. -/
def check_output (taskOutputs : List (String × List String))
    (taskName : String) (out : PyVal) : CheckRes :=
  match lookupTbl taskOutputs taskName with
  | none => .skippedWarn
  | some outputKeys =>
    let missingKeys := outputKeys.filter (fun k => !pyContains out k)
    if missingKeys.length > 0 then
      .failed (.valueError ("expected output keys are " ++ toString outputKeys
        ++ ", those " ++ toString missingKeys ++ " are missing"))
    else .passed

/-! ### The single-process engine: `_process_single` and `__call__` -/

/-- Stage functions and configuration of a pipeline built with a single
model and a single preprocessor: `preprocess`, `forward` and `postprocess`
are the bound collaborators (the default `preprocess`/`forward` delegate to
the single bound preprocessor/model), `checkTy` is the external
`check_input_type`, and the two tables are the registries consulted by the
validators. -/
structure SPipe where
  taskName : String
  taskInputs : List (String × InputDesc)
  taskOutputs : List (String × List String)
  checkTy : String → PyVal → Except PyErr Unit
  preprocess : PyVal → PyVal
  frameworkTorch : Bool
  autoCollate : Bool
  device : String
  forward : PyVal → PyVal
  postprocess : PyVal → PyVal

/-- Embedding of `Pipeline._process_single`: input check, preprocess, then
under the device-placement scope (torch adds `no_grad` and, when
`_auto_collate` is set, collation) forward, then postprocess and output
check.  A raised exception aborts the chain at the point it occurs. -/
def process_single (p : SPipe) (input : PyVal) : Except PyErr PyVal := do
  asExcept (check_input p.checkTy p.taskInputs p.taskName input)
  let out := p.preprocess input
  let out ← if p.frameworkTorch && p.autoCollate then collate_fn p.device out else .ok out
  let out := p.forward out
  let out := p.postprocess out
  asExcept (check_output p.taskOutputs p.taskName out)
  .ok out

/-- An invocation-time input: a scalar, a Python list, or an `MsDataset`
(represented by its elements in source order). -/
inductive CallInput where
  | scalar (v : PyVal)
  | listOf (vs : List PyVal)
  | dataset (vs : List PyVal)

/-- An invocation result: one result dict, a list of results, or the lazy
generator (represented by the per-element outcomes it yields, one per
pull, in source order). -/
inductive CallOutput where
  | single (v : PyVal)
  | many (vs : List PyVal)
  | gen (rs : List (Except PyErr PyVal))

/-- The list branch of `__call__`: `output = []` then append
`self._process_single(ele)` for each element in order; a raised exception
aborts the whole call. -/
def process_list (p : SPipe) : List PyVal → Except PyErr (List PyVal)
  | [] => .ok []
  | x :: xs => do
    let y ← process_single p x
    let ys ← process_list p xs
    .ok (y :: ys)

/-- Embedding of the `Pipeline.__call__` dispatch on input shape (lines
178-188): a list is processed eagerly element by element; an `MsDataset`
returns the `_process_iterator` generator immediately, each pull of which
runs `_process_single` on the next source element; anything else takes the
scalar path. -/
def pipeline_call (p : SPipe) : CallInput → Except PyErr CallOutput
  | .listOf vs => (process_list p vs).map .many
  | .dataset vs => .ok (.gen (vs.map (process_single p)))
  | .scalar v => (process_single p v).map .single

/-! ### Framework resolution, model binding, model preparation -/

/-- Embedding of `Pipeline._get_framework`, abstracted over the
configuration-file reads: the argument is the list of framework tags read
from the bound models' configuration files, one per model in order.
`frameworks[0]` on an empty list raises `IndexError` (unreachable: the
method is only called when at least one model is bound). -/
def get_framework (frameworks : List String) : Except PyErr String :=
  match frameworks with
  | [] => .error .indexError
  | f0 :: rest =>
    if (f0 :: rest).all (fun x => x == f0) then .ok f0
    else .error (.valueError
      ("got multiple models, but they are in different frameworks " ++ toString (f0 :: rest)))

/-- The `model` constructor argument: a single handle, or a Python list of
handles (`isinstance(model, List)`). -/
inductive ModelArg (μ : Type) where
  | single (m : μ)
  | multi (ms : List μ)

/-- The model-binding part of `Pipeline.__init__` (lines 93-100),
abstracted over `initiate_single_model` (`bindOne`): a non-list argument is
bound once and becomes both the primary model and the one-element model
list; a list argument binds each element independently in order
(`initiate_multiple_models`) and the primary model is set to `None`. -/
def bind_models {μ ν : Type} (bindOne : μ → ν) : ModelArg μ → Option ν × List ν
  | .single m => (some (bindOne m), [bindOne m])
  | .multi ms => (none, ms.map bindOne)

/-- Assignment `self.has_multiple_models = len(self.models) > 1`. -/
def has_multiple_models {ν : Type} (models : List ν) : Bool :=
  models.length > 1

/-- The guard of the default `Pipeline.forward` (lines 293-294): it asserts
that a primary model is bound and that the multi-model flag is off. -/
def default_forward_available {ν : Type} (model : Option ν) (hasMulti : Bool) : Bool :=
  model.isSome && !hasMulti

/-- Observable state of one bound model handle: whether it is (or wraps) a
torch module, the device it was last moved to, and whether it is in
evaluation mode. -/
structure MState where
  isTorchModule : Bool
  device : Option String
  evalMode : Bool
deriving Repr, DecidableEq

/-- State touched by `Pipeline.prepare_model`: the resolved framework, the
target device, the bound models (in the single-model case
`models == [self.model]`, so preparing `self.model` coincides with
preparing every element), the `_model_prepare` flag, and whether
`_model_prepare_lock` is held by another thread for longer than the
600-second acquisition timeout. -/
structure PrepState where
  frameworkTorch : Bool
  targetDevice : String
  models : List MState
  modelPrepare : Bool
  lockHeldByOther : Bool
deriving Repr, DecidableEq

/-- Python `Lock.acquire(timeout=600)`: returns `True` when the lock was
acquired, `False` when the timeout elapsed first; it does not raise. -/
def lock_acquire (heldByOther : Bool) : Bool := !heldByOther

/-- The local `_prepare_single`: a torch module, or a wrapper exposing one
through its `model` attribute, is moved to the target device and switched
to evaluation mode; anything else is left alone. -/
def prepare_single (device : String) (m : MState) : MState :=
  if m.isTorchModule then { m with device := some device, evalMode := true } else m

/-- Embedding of `Pipeline.prepare_model`.  The boolean result of
`acquire(timeout=600)` is discarded by the source, so the preparation body
runs whether or not the lock was actually acquired; the final `release()`
on a `threading.Lock` succeeds from any thread, so it frees the lock even
when another thread held it.  No exception is raised on any path. -/
def prepare_model (s : PrepState) : PrepState :=
  let _acquired := lock_acquire s.lockHeldByOther
  let s1 :=
    if !s.modelPrepare then
      { s with
        models :=
          if s.frameworkTorch then s.models.map (prepare_single s.targetDevice) else s.models,
        modelPrepare := true }
    else s
  { s1 with lockHeldByOther := false }

/-! ### The distributed engine -/

/-- The single message `DistributedPipeline.forward` builds and broadcasts:
the preprocessed inputs together with the forward parameters. -/
structure DistMsg (I P : Type) where
  inputs : I
  forward_params : P

/-- Python `Pool.map(f, jobs)` on a pool of exactly `jobs.length` workers,
one job per worker: job `i` is handled by the worker of rank `i` and the
results come back in job order. -/
def pool_map {μ ρ : Type} (f : Nat → μ → ρ) (jobs : List μ) : List ρ :=
  ((List.range jobs.length).zip jobs).map (fun rm => f rm.1 rm.2)

/-- A distributed pipeline: the `world_size` read from the model
configuration, and the class-level per-rank forward hook `_forward_one`
(each worker process runs it against its own rank's shard). -/
structure DistPipe (I P R : Type) where
  world_size : Nat
  forwardOne : Nat → DistMsg I P → R

/-- The ranks instantiated at construction time:
`ranks = list(range(self.world_size))`, mapped over the freshly created
pool with the `_instantiate_one` hook (lines 354-369). -/
def dist_init_ranks (world_size : Nat) : List Nat :=
  List.range world_size

/-- Embedding of `DistributedPipeline.forward` (lines 393-401): package the
preprocessed inputs and forward parameters into one message, broadcast the
identical message to every rank via `Pool.map` on `[inputs] * world_size`,
collect the per-rank results, and return `res[0]` (`IndexError` when the
result list is empty). -/
def dist_forward {I P R : Type} (p : DistPipe I P R) (inputs : I) (fp : P) : Except PyErr R :=
  let msg : DistMsg I P := ⟨inputs, fp⟩
  let res := pool_map p.forwardOne (List.replicate p.world_size msg)
  match res with
  | [] => .error .indexError
  | r :: _ => .ok r

/-! ### Collation predicates (for the amended C7) -/

/-- Emptiness test for list/tuple contents. -/
def itemsIsNil : PyItems → Bool
  | .nil => true
  | .cons _ _ => false

mutual

/-- No leaf of an unrecognized type anywhere in the structure. -/
def recognizedV : PyVal → Bool
  | .vOther _ => false
  | .vDict fs => recognizedF fs
  | .vList its => recognizedI its
  | .vTuple its => recognizedI its
  | _ => true

/-- Elementwise `recognizedV` over list/tuple contents. -/
def recognizedI : PyItems → Bool
  | .nil => true
  | .cons v rest => recognizedV v && recognizedI rest

/-- Valuewise `recognizedV` over dict entries. -/
def recognizedF : PyFields → Bool
  | .nil => true
  | .cons _ v rest => recognizedV v && recognizedF rest

end

mutual

/-- Every list and tuple anywhere in the structure is nonempty. -/
def noEmptySeqV : PyVal → Bool
  | .vDict fs => noEmptySeqF fs
  | .vList its => !itemsIsNil its && noEmptySeqI its
  | .vTuple its => !itemsIsNil its && noEmptySeqI its
  | _ => true

/-- Elementwise `noEmptySeqV` over list/tuple contents. -/
def noEmptySeqI : PyItems → Bool
  | .nil => true
  | .cons v rest => noEmptySeqV v && noEmptySeqI rest

/-- Valuewise `noEmptySeqV` over dict entries. -/
def noEmptySeqF : PyFields → Bool
  | .nil => true
  | .cons _ v rest => noEmptySeqV v && noEmptySeqF rest

end

mutual

/-- Every list or tuple anywhere in the structure that is headed by a
number consists entirely of numbers (so `torch.tensor` on it succeeds);
sequences headed by anything else are checked elementwise. -/
def homogSeqV : PyVal → Bool
  | .vDict fs => homogSeqF fs
  | .vList .nil => true
  | .vList (.cons v vs) =>
    if isIntFloat v then allNumItems (.cons v vs) else homogSeqI (.cons v vs)
  | .vTuple .nil => true
  | .vTuple (.cons v vs) =>
    if isIntFloat v then allNumItems (.cons v vs) else homogSeqI (.cons v vs)
  | _ => true

/-- Elementwise `homogSeqV` over list/tuple contents. -/
def homogSeqI : PyItems → Bool
  | .nil => true
  | .cons v rest => homogSeqV v && homogSeqI rest

/-- Valuewise `homogSeqV` over dict entries. -/
def homogSeqF : PyFields → Bool
  | .nil => true
  | .cons _ v rest => homogSeqV v && homogSeqF rest

end

mutual

/-- Relation between a structure and its collated form: container shape is
preserved, except that a nonempty list or tuple consisting entirely of
int/float/bool numbers is collapsed by `default_collate` into one tensor
on the target device (no non-number is ever swallowed into a tensor);
tensors and numeric arrays land on the target device; strings, primitives
and the opaque pass-through containers are unchanged. -/
def collatedShapeV (dev : String) : PyVal → PyVal → Bool
  | .vDict fs, .vDict gs => collatedShapeF dev fs gs
  | .vList (.cons v vs), .vTensor d => allNumItems (.cons v vs) && d == dev
  | .vList (.cons v vs), .vList ws => !isIntFloat v && collatedShapeI dev (.cons v vs) ws
  | .vTuple (.cons v vs), .vTensor d => allNumItems (.cons v vs) && d == dev
  | .vTuple (.cons v vs), .vTuple ws => !isIntFloat v && collatedShapeI dev (.cons v vs) ws
  | .vNdarray true, .vNdarray true => true
  | .vNdarray false, .vTensor d => d == dev
  | .vTensor _, .vTensor d => d == dev
  | .vBytes, .vBytes => true
  | .vStr s, .vStr t => s == t
  | .vInt m, .vInt n => m == n
  | .vFloat, .vFloat => true
  | .vBool a, .vBool b => a == b
  | .vNone, .vNone => true
  | .vInputFeatures, .vInputFeatures => true
  | .vDataContainer, .vDataContainer => true
  | _, _ => false

/-- Elementwise `collatedShapeV` over list/tuple contents. -/
def collatedShapeI (dev : String) : PyItems → PyItems → Bool
  | .nil, .nil => true
  | .cons v vs, .cons w ws => collatedShapeV dev v w && collatedShapeI dev vs ws
  | _, _ => false

/-- Keywise `collatedShapeV` over dict entries (keys preserved in order). -/
def collatedShapeF (dev : String) : PyFields → PyFields → Bool
  | .nil, .nil => true
  | .cons k v vs, .cons k2 w ws => k == k2 && collatedShapeV dev v w && collatedShapeF dev vs ws
  | _, _ => false

end

/-- Leaves that `collate_fn` returns unchanged: bytes, strings, ints,
floats, bools, `None`, `InputFeatures`, `DataContainer`, and string-dtype
numpy arrays. -/
def passThroughLeaf : PyVal → Bool
  | .vBytes => true
  | .vStr _ => true
  | .vInt _ => true
  | .vFloat => true
  | .vBool _ => true
  | .vNone => true
  | .vInputFeatures => true
  | .vDataContainer => true
  | .vNdarray strDtype => strDtype
  | _ => false

/-! ### Concrete fixtures -/

/-- Modelled from the spec: `check_input_type` is imported from
`modelscope.pipeline_inputs`, which is not part of this source file; per
the spec, a single declared type means "check the input's type equals it",
failing with a value error otherwise. -/
def check_input_type (t : String) (v : PyVal) : Except PyErr Unit :=
  if pyTypeName v == t then .ok ()
  else .error (.valueError ("invalid input type: expected " ++ t ++ ", got " ++ pyTypeName v))

/-- The spec's example `TASK_INPUTS` row: task `image-classification`
declares a single `str` input (a file path). -/
def scenarioInputs : List (String × InputDesc) :=
  [("image-classification", .ty "str")]

/-- The spec's example `TASK_OUTPUTS` row: task `image-classification`
requires the output keys `labels` and `scores`. -/
def scenarioOutputs : List (String × List String) :=
  [("image-classification", ["labels", "scores"])]

/-- A concrete single-model single-preprocessor pipeline used to exercise
the dispatch: no registered task (both validators skip with a warning),
identity stages, non-torch framework (no collation). -/
def idPipe : SPipe :=
  { taskName := "demo-task"
    taskInputs := []
    taskOutputs := []
    checkTy := check_input_type
    preprocess := id
    frameworkTorch := false
    autoCollate := true
    device := "cpu"
    forward := id
    postprocess := id }

/-! ### Theorems -/

/-- C10: `collate_fn` on an empty list or empty tuple raises `IndexError`
(`data[0]` is evaluated unconditionally), which is neither the empty
container returned unchanged nor the `ValueError` of the unsupported-type
branch. -/
theorem collate_fn_empty_seq_index_error (device : String) :
    collate_fn device (.vList .nil) = .error .indexError
    ∧ collate_fn device (.vTuple .nil) = .error .indexError
    ∧ (∀ msg : String, (PyErr.indexError : PyErr) ≠ .valueError msg)
    ∧ collate_fn device (.vList .nil) ≠ .ok (.vList .nil)
    ∧ collate_fn device (.vTuple .nil) ≠ .ok (.vTuple .nil) := by
  refine ⟨rfl, rfl, ?_, ?_, ?_⟩
  · intro msg h
    cases h
  · intro h
    cases h
  · intro h
    cases h

/-- C9: `prepare_model` is idempotent: a second call observes the
`_model_prepare` flag already set, skips the preparation body, and leaves
the whole observable state (device placement, evaluation mode, prepared
flag) exactly as after the first call; the flag is set after any call. -/
theorem prepare_model_idempotent (s : PrepState) :
    prepare_model (prepare_model s) = prepare_model s
    ∧ (prepare_model s).modelPrepare = true := by
  obtain ⟨ft, dev, ms, mp, lk⟩ := s
  cases mp <;> exact ⟨rfl, rfl⟩

/-- C6: at the failing input — another thread holding the preparation lock
past the 600-second acquisition ceiling — `Lock.acquire(timeout=600)`
reports failure, yet `prepare_model` discards that result: it still runs
the preparation body (moving the model onto the target device, switching
it to evaluation mode, setting the prepared flag) and then releases the
other thread's lock.  No timeout condition is surfaced on any path (the
embedding is total), contradicting the stated fatal-timeout behavior. -/
theorem prepare_model_ignores_timeout :
    lock_acquire true = false
    ∧ prepare_model (PrepState.mk true "cuda:0" [MState.mk true none false] false true)
      = PrepState.mk true "cuda:0" [MState.mk true (some "cuda:0") true] true false :=
  ⟨rfl, rfl⟩

/-- C8 (counterexample): constructing with the one-element model list `[0]`
(binding elements with the identity) leaves the multi-model flag down —
`len(models) > 1` is false for a singleton list — contradicting the claim
that every pipeline constructed with a list of handles has the flag
raised. -/
theorem bind_models_singleton_flag_down :
    has_multiple_models (bind_models (fun n : Nat => n) (.multi [0])).2 = false := by
  decide

/-- C8 (amended): a list model argument binds each element independently in
order with the single-handle rule, sets the primary model to none, and
raises the multi-model flag exactly when the list has more than one
element; the default forward's guard fails in every case regardless of the
flag, because it requires a primary model. -/
theorem bind_models_list_spec {μ ν : Type} (bindOne : μ → ν) (ms : List μ) (hm : Bool) :
    bind_models bindOne (.multi ms) = (none, ms.map bindOne)
    ∧ ((bind_models bindOne (.multi ms)).2).length = ms.length
    ∧ (∀ i, ((bind_models bindOne (.multi ms)).2).get? i = (ms.get? i).map bindOne)
    ∧ has_multiple_models (bind_models bindOne (.multi ms)).2 = decide (1 < ms.length)
    ∧ default_forward_available (bind_models bindOne (.multi ms)).1 hm = false := by
  refine ⟨rfl, by simp [bind_models], ?_, ?_, rfl⟩
  · intro i
    simp [bind_models]
  · simp [bind_models, has_multiple_models]

/-- C4: `_get_framework` with at least two bound models: when the collected
framework tags are not all equal it raises the configuration-conflict
`ValueError` naming the whole collected tag list; when they are all equal
it returns the single common tag, which becomes the pipeline framework. -/
theorem get_framework_spec (f0 f1 : String) (rest : List String) :
    ((¬ ∀ x ∈ f0 :: f1 :: rest, x = f0) →
      get_framework (f0 :: f1 :: rest) = .error (.valueError
        ("got multiple models, but they are in different frameworks "
          ++ toString (f0 :: f1 :: rest))))
    ∧ ((∀ x ∈ f0 :: f1 :: rest, x = f0) → get_framework (f0 :: f1 :: rest) = .ok f0) := by
  constructor
  · intro hne
    show (if ((f0 :: f1 :: rest).all fun x => x == f0) = true then _ else _) = _
    rw [if_neg]
    intro hall
    rw [List.all_eq_true] at hall
    exact hne (fun x hx => by simpa using hall x hx)
  · intro hall
    show (if ((f0 :: f1 :: rest).all fun x => x == f0) = true then _ else _) = _
    rw [if_pos]
    rw [List.all_eq_true]
    intro x hx
    simpa using hall x hx

/-- Closed witness for C4 at concrete tags: two differing tags raise the
conflict error naming both; two equal tags resolve to the common one. -/
theorem get_framework_spec_witness :
    get_framework ["pytorch", "tensorflow"] = .error (.valueError
      ("got multiple models, but they are in different frameworks "
        ++ toString ["pytorch", "tensorflow"]))
    ∧ get_framework ["pytorch", "pytorch"] = .ok "pytorch" :=
  ⟨(get_framework_spec "pytorch" "tensorflow" []).1 (by
      intro hall
      have := hall "tensorflow" (by simp)
      simp at this),
    (get_framework_spec "pytorch" "pytorch" []).2 (by
      intro x hx
      simpa using hx)⟩

/-- Helper: zipping a list with a replicate of its own length pairs every
element with the replicated value. -/
theorem zip_replicate_self {α β : Type} (m : β) :
    ∀ (l : List α), l.zip (List.replicate l.length m) = l.map (fun a => (a, m)) := by
  intro l
  induction l with
  | nil => rfl
  | cons a l ih => simpa [List.replicate] using ih

/-- Helper: a pool map over `w` copies of one message applies the per-rank
function to that same message at every rank `0..w-1`, in rank order. -/
theorem pool_map_replicate {μ ρ : Type} (f : Nat → μ → ρ) (w : Nat) (m : μ) :
    pool_map f (List.replicate w m) = (List.range w).map (fun r => f r m) := by
  unfold pool_map
  rw [List.length_replicate]
  rw [show List.replicate w m = List.replicate (List.range w).length m by rw [List.length_range]]
  rw [zip_replicate_self m (List.range w)]
  rw [List.map_map]
  rfl

/-- C5: distributed construction and forward for any positive world size W:
construction maps the instantiation hook over exactly the ranks `0..W-1`;
a forward call broadcasts one identical message (the preprocessed inputs
plus the forward parameters) to all W workers, collects exactly W per-rank
results — the i-th produced by rank i from that same message — and returns
rank 0's result, discarding the rest. -/
theorem dist_forward_rank0 {I P R : Type} (p : DistPipe I P R)
    (inputs : I) (fp : P) (hW : 0 < p.world_size) :
    (dist_init_ranks p.world_size).length = p.world_size
    ∧ (∀ i, i < p.world_size → (dist_init_ranks p.world_size).get? i = some i)
    ∧ (∀ m ∈ List.replicate p.world_size (DistMsg.mk inputs fp), m = DistMsg.mk inputs fp)
    ∧ (pool_map p.forwardOne (List.replicate p.world_size (DistMsg.mk inputs fp))).length
        = p.world_size
    ∧ (∀ i, i < p.world_size →
        (pool_map p.forwardOne (List.replicate p.world_size (DistMsg.mk inputs fp))).get? i
          = some (p.forwardOne i (DistMsg.mk inputs fp)))
    ∧ dist_forward p inputs fp = .ok (p.forwardOne 0 (DistMsg.mk inputs fp)) := by
  refine ⟨by simp [dist_init_ranks], ?_, ?_, ?_, ?_, ?_⟩
  · intro i hi
    simp [dist_init_ranks, List.getElem?_range, hi]
  · intro m hm
    exact List.eq_of_mem_replicate hm
  · rw [pool_map_replicate]
    simp
  · intro i hi
    rw [pool_map_replicate]
    simp [List.getElem?_range, hi]
  · show (match pool_map p.forwardOne
        (List.replicate p.world_size (DistMsg.mk inputs fp)) with
      | [] => Except.error PyErr.indexError
      | r :: _ => Except.ok r) = _
    rw [pool_map_replicate]
    obtain ⟨w, hw⟩ : ∃ w, p.world_size = w + 1 :=
      ⟨p.world_size - 1, by omega⟩
    rw [hw, List.range_succ_eq_map]
    rfl

/-- Closed witness for C5: a three-rank pipeline whose per-rank hook
returns its own rank; the forward call returns rank 0's result. -/
theorem dist_forward_rank0_witness :
    dist_forward (DistPipe.mk 3 (fun r _ => r) : DistPipe Nat Nat Nat) 7 8 = .ok 0 :=
  (dist_forward_rank0 (DistPipe.mk 3 (fun r _ => r)) 7 8 (by decide)).2.2.2.2.2

/-- Helper: when every element of the list succeeds on the single-item
path, the list branch of `__call__` collects exactly one result per
element, in order. -/
theorem process_list_ok (p : SPipe) :
    ∀ (xs : List PyVal), (∀ x ∈ xs, ∃ y, process_single p x = .ok y) →
      ∃ ys, process_list p xs = .ok ys ∧ ys.length = xs.length
        ∧ ∀ i, (ys.get? i).map Except.ok = (xs.get? i).map (process_single p) := by
  intro xs
  induction xs with
  | nil =>
    intro _
    exact ⟨[], rfl, rfl, fun i => by cases i <;> rfl⟩
  | cons x xs ih =>
    intro h
    obtain ⟨y, hy⟩ := h x (by simp)
    obtain ⟨ys, hys, hlen, hget⟩ := ih (fun x2 hx2 => h x2 (by simp [hx2]))
    refine ⟨y :: ys, ?_, by simp [hlen], ?_⟩
    · show Except.bind (process_single p x) _ = _
      rw [hy]
      show Except.bind (process_list p xs) _ = _
      rw [hys]
      rfl
    · intro i
      cases i with
      | zero => simp [hy]
      | succ j => simpa using hget j

/-- C1: the `__call__` dispatch for a single-model single-preprocessor
pipeline: a scalar input runs the single-item path once and returns its
result; a list of inputs on which every single-item run succeeds returns a
list of exactly as many results, in the same order, the i-th produced by
the single-item path on the i-th input; a dataset input immediately
returns the generator, which yields exactly one single-item outcome per
element pulled, in source order. -/
theorem pipeline_call_dispatch (p : SPipe) (x : PyVal) (xs : List PyVal) :
    pipeline_call p (.scalar x) = (process_single p x).map .single
    ∧ (∀ y, process_single p x = .ok y → pipeline_call p (.scalar x) = .ok (.single y))
    ∧ ((∀ x2 ∈ xs, ∃ y, process_single p x2 = .ok y) →
        ∃ ys, pipeline_call p (.listOf xs) = .ok (.many ys)
          ∧ ys.length = xs.length
          ∧ ∀ i, (ys.get? i).map Except.ok = (xs.get? i).map (process_single p))
    ∧ pipeline_call p (.dataset xs) = .ok (.gen (xs.map (process_single p)))
    ∧ (xs.map (process_single p)).length = xs.length
    ∧ (∀ i, (xs.map (process_single p)).get? i = (xs.get? i).map (process_single p)) := by
  refine ⟨rfl, ?_, ?_, rfl, by simp, ?_⟩
  · intro y hy
    show (process_single p x).map _ = _
    rw [hy]
    rfl
  · intro h
    obtain ⟨ys, hys, hlen, hget⟩ := process_list_ok p xs h
    refine ⟨ys, ?_, hlen, hget⟩
    show (process_list p xs).map _ = _
    rw [hys]
    rfl
  · intro i
    simp

/-- Closed witness for C1 on the identity pipeline: a two-element list
input yields two results in order. -/
theorem pipeline_call_dispatch_witness :
    ∃ ys, pipeline_call idPipe (.listOf [.vInt 1, .vStr "a"]) = .ok (.many ys)
      ∧ ys.length = ([PyVal.vInt 1, PyVal.vStr "a"] : List PyVal).length
      ∧ ∀ i, (ys.get? i).map Except.ok
          = (([PyVal.vInt 1, PyVal.vStr "a"] : List PyVal).get? i).map (process_single idPipe) :=
  (pipeline_call_dispatch idPipe (.vInt 0) [.vInt 1, .vStr "a"]).2.2.1
    (fun x2 _ => ⟨x2, rfl⟩)

/-- Helper: a successful `find?` returns an element satisfying the
predicate that is first in list order — every earlier element fails it. -/
theorem find?_first_spec {α : Type} (p : α → Bool) :
    ∀ (l : List α) (a : α), l.find? p = some a →
      p a = true
      ∧ ∃ i, l.get? i = some a ∧ ∀ j, j < i → ∀ b, l.get? j = some b → p b = false := by
  intro l
  induction l with
  | nil =>
    intro a h
    cases h
  | cons x xs ih =>
    intro a h
    cases hx : p x with
    | true =>
      rw [List.find?_cons_of_pos _ hx] at h
      cases h
      exact ⟨hx, 0, rfl, fun j hj => absurd hj (by omega)⟩
    | false =>
      rw [List.find?_cons_of_neg _ (by simp [hx])] at h
      obtain ⟨hpa, i, hi, hfirst⟩ := ih a h
      refine ⟨hpa, i + 1, by simpa using hi, ?_⟩
      intro j hj b hb
      cases j with
      | zero =>
        have hbx : x = b := by simpa using hb
        rw [← hbx]
        exact hx
      | succ k =>
        exact hfirst k (by omega) b (by simpa using hb)

/-- C2: when the task's registered input descriptor is a list of
alternative shapes, `_check_input` selects the first alternative whose
declared outer type exactly matches the input's runtime type and checks
the input against that alternative; when no alternative matches, it fails
with the `ValueError` whose message enumerates all the alternatives. -/
theorem check_input_alternatives (checkTy : String → PyVal → Except PyErr Unit)
    (tbl : List (String × InputDesc)) (task : String) (ds : List InputDesc) (input : PyVal)
    (hlook : lookupTbl tbl task = some (.alts ds)) :
    ((∀ d ∈ ds, descMatches d input = false) →
      check_input checkTy tbl task input = .failed (.valueError (altsErrMsg ds)))
    ∧ (∀ d, ds.find? (fun t => descMatches t input) = some d →
        descMatches d input = true
        ∧ (∃ i, ds.get? i = some d
            ∧ ∀ j, j < i → ∀ d2, ds.get? j = some d2 → descMatches d2 input = false)
        ∧ check_input checkTy tbl task input = resOf (checkWithDesc checkTy d input)) := by
  have hck : check_input checkTy tbl task input =
      (match ds.find? (fun t => descMatches t input) with
        | none => .failed (.valueError (altsErrMsg ds))
        | some d => resOf (checkWithDesc checkTy d input)) := by
    unfold check_input
    rw [hlook]
  constructor
  · intro hnone
    have hfind : ds.find? (fun t => descMatches t input) = none := by
      rw [List.find?_eq_none]
      intro d hd
      simp [hnone d hd]
    rw [hck, hfind]
  · intro d hd
    obtain ⟨hp, i, hi, hfirst⟩ := find?_first_spec _ ds d hd
    exact ⟨hp, ⟨i, hi, hfirst⟩, by rw [hck, hd]⟩

/-- Closed witness for C2: an integer input matches neither the single-str
alternative nor the tuple alternative, so validation fails with the
message enumerating both. -/
theorem check_input_alternatives_witness :
    check_input check_input_type
        [("t", InputDesc.alts [.ty "str", .tup ["str"]])] "t" (.vInt 5)
      = .failed (.valueError (altsErrMsg [.ty "str", .tup ["str"]])) :=
  (check_input_alternatives check_input_type
      [("t", InputDesc.alts [.ty "str", .tup ["str"]])] "t"
      [.ty "str", .tup ["str"]] (.vInt 5) rfl).1
    (by
      intro d hd
      rcases List.mem_cons.mp hd with h | h2
      · rw [h]
        rfl
      · rcases List.mem_cons.mp h2 with h | h3
        · rw [h]
          rfl
        · cases h3)

/-- C3: the spec's example scenario.  With task `image-classification`
registered with single input type `str` and required output keys `labels`
and `scores`: an integer input fails input validation, and the whole
single-item path fails with that same error whatever the stage functions
are (so preprocessing is never consulted); an output carrying both keys
passes; an output with only `labels` fails naming exactly `scores` as
missing; a task absent from the output table is skipped with a warning
only. -/
theorem scenario_schema_checks :
    (∀ n : Int, check_input check_input_type scenarioInputs "image-classification" (.vInt n)
        = .failed (.valueError "invalid input type: expected str, got int"))
    ∧ (∀ (pre fwd post : PyVal → PyVal) (ft ac : Bool) (dev : String) (n : Int),
        process_single
            (SPipe.mk "image-classification" scenarioInputs scenarioOutputs check_input_type
              pre ft ac dev fwd post) (.vInt n)
          = .error (.valueError "invalid input type: expected str, got int"))
    ∧ check_output scenarioOutputs "image-classification"
        (.vDict (.cons "labels" (.vList (.cons (.vStr "cat") .nil))
          (.cons "scores" (.vList (.cons .vFloat .nil)) .nil))) = .passed
    ∧ check_output scenarioOutputs "image-classification"
        (.vDict (.cons "labels" (.vList (.cons (.vStr "cat") .nil)) .nil))
      = .failed (.valueError ("expected output keys are " ++ toString ["labels", "scores"]
          ++ ", those " ++ toString ["scores"] ++ " are missing"))
    ∧ check_output scenarioOutputs "unregistered-task" (.vDict .nil) = .skippedWarn :=
  ⟨fun _ => rfl, fun _ _ _ _ _ _ _ => rfl, rfl, rfl, rfl⟩

set_option maxHeartbeats 2000000

mutual

/-- Helper: on recognized values without empty sequences and with every
numeric-headed sequence entirely numeric, collation succeeds with the
collated shape. -/
theorem collateOkV (dev : String) :
    ∀ v, recognizedV v = true → noEmptySeqV v = true → homogSeqV v = true →
      ∃ w, collate_fn dev v = .ok w ∧ collatedShapeV dev v w = true
  | .vDict fs, h1, h2, h3 => by
    obtain ⟨gs, hg, hs⟩ := collateOkF dev fs h1 h2 h3
    refine ⟨.vDict gs, ?_, hs⟩
    simp [collate_fn, hg]
  | .vList .nil, _, h2, _ => by simp [noEmptySeqV, itemsIsNil] at h2
  | .vList (.cons v vs), h1, h2, h3 => by
    cases hnum : isIntFloat v with
    | true =>
      have h3a : allNumItems (.cons v vs) = true := by
        simpa [homogSeqV, hnum] using h3
      refine ⟨.vTensor dev, ?_, ?_⟩
      · simp [collate_fn, hnum, h3a]
      · simp [collatedShapeV, h3a]
    | false =>
      have h2a : noEmptySeqI (.cons v vs) = true := by
        simpa [noEmptySeqV, itemsIsNil] using h2
      have h3a : homogSeqI (.cons v vs) = true := by
        simpa [homogSeqV, hnum] using h3
      obtain ⟨ws, hw, hs⟩ := collateOkI dev (.cons v vs) h1 h2a h3a
      refine ⟨.vList ws, ?_, ?_⟩
      · simp [collate_fn, hnum, hw]
      · simp [collatedShapeV, hnum, hs]
  | .vTuple .nil, _, h2, _ => by simp [noEmptySeqV, itemsIsNil] at h2
  | .vTuple (.cons v vs), h1, h2, h3 => by
    cases hnum : isIntFloat v with
    | true =>
      have h3a : allNumItems (.cons v vs) = true := by
        simpa [homogSeqV, hnum] using h3
      refine ⟨.vTensor dev, ?_, ?_⟩
      · simp [collate_fn, hnum, h3a]
      · simp [collatedShapeV, h3a]
    | false =>
      have h2a : noEmptySeqI (.cons v vs) = true := by
        simpa [noEmptySeqV, itemsIsNil] using h2
      have h3a : homogSeqI (.cons v vs) = true := by
        simpa [homogSeqV, hnum] using h3
      obtain ⟨ws, hw, hs⟩ := collateOkI dev (.cons v vs) h1 h2a h3a
      refine ⟨.vTuple ws, ?_, ?_⟩
      · simp [collate_fn, hnum, hw]
      · simp [collatedShapeV, hnum, hs]
  | .vNdarray true, _, _, _ => ⟨.vNdarray true, rfl, rfl⟩
  | .vNdarray false, _, _, _ => ⟨.vTensor dev, rfl, by simp [collatedShapeV]⟩
  | .vTensor d, _, _, _ => ⟨.vTensor dev, rfl, by simp [collatedShapeV]⟩
  | .vBytes, _, _, _ => ⟨.vBytes, rfl, rfl⟩
  | .vStr s, _, _, _ => ⟨.vStr s, rfl, by simp [collatedShapeV]⟩
  | .vInt n, _, _, _ => ⟨.vInt n, rfl, by simp [collatedShapeV]⟩
  | .vFloat, _, _, _ => ⟨.vFloat, rfl, rfl⟩
  | .vBool b, _, _, _ => ⟨.vBool b, rfl, by simp [collatedShapeV]⟩
  | .vNone, _, _, _ => ⟨.vNone, rfl, rfl⟩
  | .vInputFeatures, _, _, _ => ⟨.vInputFeatures, rfl, rfl⟩
  | .vDataContainer, _, _, _ => ⟨.vDataContainer, rfl, rfl⟩
  | .vOther t, h1, _, _ => by simp [recognizedV] at h1

/-- Helper: elementwise collation of list/tuple contents succeeds on
recognized, empty-sequence-free, homogeneous elements. -/
theorem collateOkI (dev : String) :
    ∀ its, recognizedI its = true → noEmptySeqI its = true → homogSeqI its = true →
      ∃ ws, collateItems dev its = .ok ws ∧ collatedShapeI dev its ws = true
  | .nil, _, _, _ => ⟨.nil, rfl, rfl⟩
  | .cons v vs, h1, h2, h3 => by
    simp only [recognizedI, Bool.and_eq_true] at h1
    simp only [noEmptySeqI, Bool.and_eq_true] at h2
    simp only [homogSeqI, Bool.and_eq_true] at h3
    obtain ⟨w, hw, hsw⟩ := collateOkV dev v h1.1 h2.1 h3.1
    obtain ⟨ws, hws, hsws⟩ := collateOkI dev vs h1.2 h2.2 h3.2
    refine ⟨.cons w ws, ?_, ?_⟩
    · simp [collateItems, hw, hws]
    · simp [collatedShapeI, hsw, hsws]

/-- Helper: valuewise collation of dict entries succeeds on recognized,
empty-sequence-free, homogeneous entry values, preserving keys. -/
theorem collateOkF (dev : String) :
    ∀ fs, recognizedF fs = true → noEmptySeqF fs = true → homogSeqF fs = true →
      ∃ gs, collateFields dev fs = .ok gs ∧ collatedShapeF dev fs gs = true
  | .nil, _, _, _ => ⟨.nil, rfl, rfl⟩
  | .cons k v vs, h1, h2, h3 => by
    simp only [recognizedF, Bool.and_eq_true] at h1
    simp only [noEmptySeqF, Bool.and_eq_true] at h2
    simp only [homogSeqF, Bool.and_eq_true] at h3
    obtain ⟨w, hw, hsw⟩ := collateOkV dev v h1.1 h2.1 h3.1
    obtain ⟨gs, hgs, hsgs⟩ := collateOkF dev vs h1.2 h2.2 h3.2
    refine ⟨.cons k w gs, ?_, ?_⟩
    · simp [collateFields, hw, hgs]
    · simp [collatedShapeF, hsw, hsgs]

end

set_option maxHeartbeats 200000

/-- C7 (amended): on any preprocessed structure made of recognized types
whose lists and tuples are all nonempty and whose numeric-headed lists and
tuples are entirely numeric, auto-collation succeeds and returns a
structure of the same container shape with every numeric/tensor-bearing
leaf moved onto the target device (`default_collate` collapses a nonempty
list or tuple of numbers into one tensor on the device, never swallowing a
non-number); a numeric-headed list or tuple holding a non-numeric element
makes `torch.tensor` raise instead; pass-through leaves — strings,
primitives, string-dtype arrays and the opaque device-bound containers —
are returned unchanged; a leaf of an unrecognized type raises the fatal
`ValueError`.  (An empty list or tuple instead raises `IndexError`; see
the counterexample.) -/
theorem collate_fn_amended_spec (dev : String) :
    (∀ v, recognizedV v = true → noEmptySeqV v = true → homogSeqV v = true →
      ∃ w, collate_fn dev v = .ok w ∧ collatedShapeV dev v w = true)
    ∧ (∀ v vs, isIntFloat v = true → allNumItems (.cons v vs) = false →
        collate_fn dev (.vList (.cons v vs))
          = .error (.typeError "default_collate: batch must contain numbers of a consistent type")
        ∧ collate_fn dev (.vTuple (.cons v vs))
          = .error (.typeError "default_collate: batch must contain numbers of a consistent type"))
    ∧ (∀ v, passThroughLeaf v = true → collate_fn dev v = .ok v)
    ∧ (∀ t, collate_fn dev (.vOther t)
        = .error (.valueError ("Unsupported data type " ++ t))) := by
  refine ⟨collateOkV dev, ?_, ?_, fun t => rfl⟩
  · intro v vs hnum hbad
    constructor
    · simp [collate_fn, hnum, hbad]
    · simp [collate_fn, hnum, hbad]
  intro v hp
  cases v with
  | vNdarray s =>
    have hs : s = true := hp
    subst hs
    rfl
  | vBytes => rfl
  | vStr s => rfl
  | vInt n => rfl
  | vFloat => rfl
  | vBool b => rfl
  | vNone => rfl
  | vInputFeatures => rfl
  | vDataContainer => rfl
  | vDict fs => exact absurd hp (by simp [passThroughLeaf])
  | vList its => exact absurd hp (by simp [passThroughLeaf])
  | vTuple its => exact absurd hp (by simp [passThroughLeaf])
  | vTensor d => exact absurd hp (by simp [passThroughLeaf])
  | vOther t => exact absurd hp (by simp [passThroughLeaf])

/-- C7 (counterexample): the claim quantifies over every preprocessed
structure, but on a dict holding an empty list `collate_fn` raises
`IndexError`: it returns no collated structure and raises neither
documented outcome (the unsupported-type `ValueError` included). -/
theorem collate_fn_nested_empty_counterexample :
    collate_fn "cpu" (.vDict (.cons "img" (.vList .nil) .nil)) = .error .indexError := rfl

/-- Closed witness for C7 at concrete structures: a dict with an
all-numeric list and a string collates to a dict with one device tensor
and the unchanged string; a numeric-headed list with a string tail raises
the collation `TypeError`. -/
theorem collate_fn_amended_spec_witness :
    (∃ w, collate_fn "cuda:0"
        (.vDict (.cons "x" (.vList (.cons (.vInt 1) (.cons (.vInt 2) .nil)))
          (.cons "s" (.vStr "a") .nil)))
        = .ok w
      ∧ collatedShapeV "cuda:0"
          (.vDict (.cons "x" (.vList (.cons (.vInt 1) (.cons (.vInt 2) .nil)))
            (.cons "s" (.vStr "a") .nil))) w = true)
    ∧ collate_fn "cuda:0" (.vList (.cons (.vInt 1) (.cons (.vStr "a") .nil)))
      = .error (.typeError "default_collate: batch must contain numbers of a consistent type") :=
  ⟨(collate_fn_amended_spec "cuda:0").1 _ rfl rfl rfl,
    ((collate_fn_amended_spec "cuda:0").2.1 (.vInt 1) (.cons (.vStr "a") .nil) rfl rfl).1⟩

end ModelscopeBase
